import Mathlib

/-!
Shallow embedding of `src/mcp-gnews-server/main.py` (the MCP GNews server):
request-parameter construction (`search_news`, lines 102-136), the upstream
call (`make_gnews_request`, lines 67-99), credential lookup (`get_api_key`,
lines 56-60) and response normalisation (`search_news`, lines 138-153).

The HTTP transport is modelled as an oracle (`Upstream`): either a completed
response carrying a status code, raw text and the result of `response.json()`
(`Except`: `.error` models the `json.JSONDecodeError` raised when the body is
not valid JSON), or an `httpx.RequestError` carrying its message. JSON values
are modelled by `JValue` (numbers as integers; objects as key-value lists with
distinct keys, as produced by `json.loads`). Python dicts of query parameters
are modelled as insertion-ordered association lists.
-/

set_option autoImplicit false

namespace GNews

/-- JSON values, as returned by `response.json()`. Numeric literals are
modelled as integers. An `obj` list models a Python dict in insertion order;
dicts produced by `json.loads` have distinct keys. -/
inductive JValue where
  | null
  | bool (b : Bool)
  | num (n : Int)
  | str (s : String)
  | arr (xs : List JValue)
  | obj (kvs : List (String × JValue))
deriving Repr

/-- A value stored in the outbound parameter dict: the source puts strings
(`q`, `lang`, ...) and integers (`max`, `page`) into `params`. -/
inductive ParamValue where
  | s (v : String)
  | i (v : Int)
deriving Repr, DecidableEq

/-- The resolved arguments of `search_news` after pydantic applies the
declared defaults (main.py lines 103-113): `none` models a `None` argument;
`max_articles`, `sortby` and `page` default to `10`, `"publishedAt"` and `1`. -/
structure SearchQuery where
  q : String
  lang : Option String := none
  country : Option String := none
  max_articles : Option Int := some 10
  search_in : Option String := none
  nullable : Option String := none
  date_from : Option String := none
  date_to : Option String := none
  sortby : Option String := some "publishedAt"
  page : Option Int := some 1
deriving Repr

/-- Python truthiness of an `Optional[str]`: `None` and `""` are falsy. -/
def strVal : Option String → Option ParamValue
  | none => none
  | some s => if s = "" then none else some (ParamValue.s s)

/-- Python truthiness of an `Optional[int]`: `None` and `0` are falsy. -/
def intVal : Option Int → Option ParamValue
  | none => none
  | some n => if n = 0 then none else some (ParamValue.i n)

/-- One `if field: params[key] = field` step for a string field
(main.py lines 119-134). -/
def optStrParam (key : String) (v : Option String) : List (String × ParamValue) :=
  match strVal v with
  | some pv => [(key, pv)]
  | none => []

/-- One `if field: params[key] = field` step for an integer field
(main.py lines 123 and 135). -/
def optIntParam (key : String) (v : Option Int) : List (String × ParamValue) :=
  match intVal v with
  | some pv => [(key, pv)]
  | none => []

/-- The parameter dict built by `search_news` before the upstream call
(main.py lines 116-136), in insertion order. -/
def buildParams (sq : SearchQuery) : List (String × ParamValue) :=
  [("q", ParamValue.s sq.q)]
    ++ optStrParam "lang" sq.lang
    ++ optStrParam "country" sq.country
    ++ optIntParam "max" sq.max_articles
    ++ optStrParam "in" sq.search_in
    ++ optStrParam "nullable" sq.nullable
    ++ optStrParam "from" sq.date_from
    ++ optStrParam "to" sq.date_to
    ++ optStrParam "sortby" sq.sortby
    ++ optIntParam "page" sq.page

/-- Dict lookup on an association list: value of the first entry with the
given key. -/
def getParam (ps : List (String × ParamValue)) (k : String) : Option ParamValue :=
  (ps.find? (fun kv => kv.1 == k)).map (fun kv => kv.2)

/-- Python dict assignment `d[k] = v`: replaces the value in place when the
key is present, otherwise appends the new entry. -/
def dictInsert (ps : List (String × ParamValue)) (k : String) (v : ParamValue) :
    List (String × ParamValue) :=
  if ps.any (fun kv => kv.1 == k) then
    ps.map (fun kv => if kv.1 == k then (k, v) else kv)
  else
    ps ++ [(k, v)]

/-- A single quote character, as used by Python `repr` of a string. -/
def pyQuote : String := String.singleton (Char.ofNat 39)

mutual

/-- Python `repr` of a JSON value, as produced inside an f-string for
containers (a list of one string renders with brackets and quoted element). -/
def pyRepr : JValue → String
  | .null => "None"
  | .bool b => if b then "True" else "False"
  | .num n => toString n
  | .str s => pyQuote ++ s ++ pyQuote
  | .arr xs => "[" ++ pyReprList xs ++ "]"
  | .obj kvs => "\x7b" ++ pyReprObj kvs ++ "\x7d"

/-- Comma-separated `repr`s of the elements of a Python list. -/
def pyReprList : List JValue → String
  | [] => ""
  | [x] => pyRepr x
  | x :: xs => pyRepr x ++ ", " ++ pyReprList xs

/-- Comma-separated quoted-key, repr-value entries of a Python dict. -/
def pyReprObj : List (String × JValue) → String
  | [] => ""
  | [(k, v)] => pyQuote ++ k ++ pyQuote ++ ": " ++ pyRepr v
  | (k, v) :: kvs => pyQuote ++ k ++ pyQuote ++ ": " ++ pyRepr v ++ ", " ++ pyReprObj kvs

end

/-- Python `str()` of a JSON value, as interpolated by an f-string: a string
is inserted verbatim, containers via `repr`. -/
def pyStr : JValue → String
  | .str s => s
  | v => pyRepr v

/-- Tests whether `p` is an initial segment of `s`. -/
def listStartsWith : List Char → List Char → Bool
  | _, [] => true
  | [], _ :: _ => false
  | a :: s, b :: p => a == b && listStartsWith s p

/-- Tests whether `p` occurs contiguously inside `s`. -/
def listContainsSub : List Char → List Char → Bool
  | [], p => p.isEmpty
  | a :: t, p => listStartsWith (a :: t) p || listContainsSub t p

/-- Python `pat in s` on strings: contiguous-substring test. -/
def strContains (s pat : String) : Bool :=
  listContainsSub s.data pat.data

/-- Models the startswith test on strings. -/
def strStartsWith (s p : String) : Bool :=
  listStartsWith s.data p.data

/-- The transport outcome of one `client.get` call: a completed HTTP
response, or an `httpx.RequestError` carrying its rendered message. -/
structure HttpResponse where
  status_code : Int
  /-- `response.text`, the raw body. -/
  text : String
  /-- The result of `response.json()`: `.error m` models a raised
  `json.JSONDecodeError` whose `str` is `m`. -/
  json : Except String JValue

/-- What the external HTTP transport does for this call. -/
inductive Upstream where
  | respond (resp : HttpResponse)
  | netError (desc : String)

/-- Models `get_api_key` (main.py lines 56-60): `os.getenv` yields `env`; `None`
and `""` are falsy, raising `ValueError`. `.error m` models a raised
exception whose `str` is `m`. -/
def get_api_key (env : Option String) : Except String String :=
  match env with
  | none => Except.error "Missing GNEWS_API_KEY environment variable."
  | some k =>
    if k = "" then Except.error "Missing GNEWS_API_KEY environment variable."
    else Except.ok k

/-- Dict lookup on a parsed JSON object. -/
def objLookup (kvs : List (String × JValue)) (k : String) : Option JValue :=
  (kvs.find? (fun kv => kv.1 == k)).map (fun kv => kv.2)

/-- Models the get-with-default dict method on a parsed JSON object. -/
def objGetD (kvs : List (String × JValue)) (k : String) (d : JValue) : JValue :=
  (objLookup kvs k).getD d

/-- The error-detail block of `make_gnews_request` for a non-200 response
(main.py lines 85-91): `error_data = response.json()`; when `"errors" in
error_data` holds, append a dash and the rendering of the errors entry. The bare
`except:` catches the parse failure, the `TypeError` raised by `in` on a
non-container, and the `TypeError` raised by string indexing of a list or
str, appending `f" - \x7bresponse.text\x7d"` instead. A membership test that
succeeds but finds nothing appends nothing. -/
def nonOkDetail (base : String) (body : Except String JValue) (text : String) : String :=
  match body with
  | .error _ => base ++ " - " ++ text
  | .ok j =>
    match j with
    | .obj kvs =>
      match objLookup kvs "errors" with
      | some v => base ++ " - " ++ pyStr v
      | none => base
    | .arr xs =>
      if xs.any (fun x => match x with | .str s => s == "errors" | _ => false)
      then base ++ " - " ++ text
      else base
    | .str s =>
      if strContains s "errors" then base ++ " - " ++ text else base
    | _ => base ++ " - " ++ text

/-- The exception-or-data outcome of the transport block of
`make_gnews_request` (main.py lines 75-99), once the request is issued:
200 with a parseable body returns the parsed data; 200 with an unparseable
body lets the `json.JSONDecodeError` propagate (it is not an
`httpx.RequestError`); non-200 raises `Exception(error_msg)`; an
`httpx.RequestError` is re-raised as a network-error `Exception`. -/
def requestOutcome (upstream : Upstream) : Except String JValue :=
  match upstream with
  | .netError desc => Except.error ("Network error connecting to GNews API: " ++ desc)
  | .respond resp =>
    if resp.status_code = 200 then
      match resp.json with
      | .ok data => Except.ok data
      | .error jmsg => Except.error jmsg
    else
      Except.error
        (nonOkDetail ("GNews API error: " ++ toString resp.status_code) resp.json resp.text)

/-- The observable effect of one call to `make_gnews_request`
(main.py lines 67-99). -/
structure ReqTrace where
  /-- The parameter dict after the call: `params["apikey"] = api_key`
  mutates the very dict the caller passed in. -/
  params_after : List (String × ParamValue)
  /-- How many times `client.get` ran. -/
  networkCalls : Nat
  /-- The returned data (`.ok`) or the rendered message of the raised exception (`.error`). -/
  outcome : Except String JValue

/-- Models `make_gnews_request` (main.py lines 67-99): resolves the key (raising
before any network access when it is missing), injects it into the callers
`params` dict, then performs the single `client.get` modelled by `upstream`. -/
def make_gnews_request (env : Option String) (upstream : Upstream)
    (params : List (String × ParamValue)) : ReqTrace :=
  match get_api_key env with
  | .error msg => { params_after := params, networkCalls := 0, outcome := Except.error msg }
  | .ok key =>
    { params_after := dictInsert params "apikey" (ParamValue.s key)
      networkCalls := 1
      outcome := requestOutcome upstream }

/-- The dict returned by `search_news` (main.py lines 140-153). The success
dict carries `totalArticles` and `articles` and no `error`; the failure dict
carries `error` and neither article field. Both echo `query` and
`parameters_used`. -/
structure ToolResult where
  success : Bool
  query : String
  error : Option String
  totalArticles : Option JValue
  articles : Option JValue
  parameters_used : List (String × ParamValue)
deriving Repr

/-- Models `search_news` (main.py lines 102-153): builds the parameter dict, calls
`make_gnews_request`, and normalises every outcome. `result.get(...)` on a
non-dict JSON value raises `AttributeError`, which the blanket
`except Exception` also converts into a failure dict. -/
def search_news (env : Option String) (upstream : Upstream) (sq : SearchQuery) : ToolResult :=
  let params := buildParams sq
  let tr := make_gnews_request env upstream params
  match tr.outcome with
  | .ok (.obj kvs) =>
    { success := true
      query := sq.q
      error := none
      totalArticles := some (objGetD kvs "totalArticles" (JValue.num 0))
      articles := some (objGetD kvs "articles" (JValue.arr []))
      parameters_used := tr.params_after }
  | .ok _ =>
    { success := false
      query := sq.q
      error := some "AttributeError: json value has no attribute get"
      totalArticles := none
      articles := none
      parameters_used := tr.params_after }
  | .error msg =>
    { success := false
      query := sq.q
      error := some msg
      totalArticles := none
      articles := none
      parameters_used := tr.params_after }

/-- The parameter set the transport would send for this call: the callers
dict after `make_gnews_request` injects the key (the `UpstreamRequest`). -/
def upstreamRequest (env : Option String) (upstream : Upstream) (sq : SearchQuery) :
    List (String × ParamValue) :=
  (make_gnews_request env upstream (buildParams sq)).params_after

/-- How many `client.get` calls a `search_news` invocation performs. -/
def searchNewsTransportCalls (env : Option String) (upstream : Upstream)
    (sq : SearchQuery) : Nat :=
  (make_gnews_request env upstream (buildParams sq)).networkCalls

/-- The four failure modes of the error taxonomy: missing or empty
credential, network-level failure, non-200 status, and a 200 response whose
body cannot be parsed. -/
def failureMode (env : Option String) (u : Upstream) : Prop :=
  env = none ∨ env = some "" ∨
  (∃ d, u = Upstream.netError d) ∨
  (∃ r, u = Upstream.respond r ∧ r.status_code ≠ 200) ∨
  (∃ r m, u = Upstream.respond r ∧ r.status_code = 200 ∧ r.json = Except.error m)

/-- Sample article record A for concrete instances. -/
def sampleArticleA : JValue := JValue.obj [("title", JValue.str "a")]

/-- Sample article record B for concrete instances. -/
def sampleArticleB : JValue := JValue.obj [("title", JValue.str "b")]

/-- Sample parsed 200 body with two articles. -/
def sampleBody : List (String × JValue) :=
  [("totalArticles", JValue.num 2),
   ("articles", JValue.arr [sampleArticleA, sampleArticleB])]

/-- A query whose optional fields are all explicitly supplied with falsy
values (0 or the empty string). -/
def sqAllFalsy : SearchQuery :=
  { q := "x", lang := some "", country := some "", max_articles := some 0,
    search_in := some "", nullable := some "", date_from := some "",
    date_to := some "", page := some 0 }

/-- Sample 403 response whose parsed body carries an errors entry. -/
def resp403 : HttpResponse :=
  { status_code := 403, text := "Forbidden",
    json := Except.ok (JValue.obj [("errors", JValue.arr [JValue.str "Invalid API key"])]) }

/-! ### Association-list lemmas for the parameter dict -/

theorem none_orElseU {α : Type} (f : Unit → Option α) :
    (none : Option α).orElse f = f () := rfl

theorem some_orElseU {α : Type} (a : α) (f : Unit → Option α) :
    (some a).orElse f = some a := rfl

theorem orElseU_none {α : Type} (o : Option α) :
    o.orElse (fun _ => none) = o := by cases o <;> rfl

theorem getParam_cons_hit (k : String) (v : ParamValue) (t : List (String × ParamValue)) :
    getParam ((k, v) :: t) k = some v := by
  simp [getParam, List.find?_cons_of_pos]

theorem getParam_cons_miss (k1 k : String) (v : ParamValue)
    (t : List (String × ParamValue)) (h : k1 ≠ k) :
    getParam ((k1, v) :: t) k = getParam t k := by
  simp only [getParam]
  rw [List.find?_cons_of_neg]
  simp [h]

theorem getParam_optStr_self (k : String) (v : Option String)
    (rest : List (String × ParamValue)) :
    getParam (optStrParam k v ++ rest) k = (strVal v).orElse (fun _ => getParam rest k) := by
  cases hsv : strVal v with
  | none => simp [optStrParam, hsv, none_orElseU]
  | some pv => simp [optStrParam, hsv, some_orElseU, getParam_cons_hit]

theorem getParam_optStr_miss (key : String) (v : Option String) (k : String)
    (rest : List (String × ParamValue)) (h : key ≠ k) :
    getParam (optStrParam key v ++ rest) k = getParam rest k := by
  cases hsv : strVal v with
  | none => simp [optStrParam, hsv]
  | some pv => simp [optStrParam, hsv, getParam_cons_miss _ _ _ _ h]

theorem getParam_optInt_self (k : String) (v : Option Int)
    (rest : List (String × ParamValue)) :
    getParam (optIntParam k v ++ rest) k = (intVal v).orElse (fun _ => getParam rest k) := by
  cases hiv : intVal v with
  | none => simp [optIntParam, hiv, none_orElseU]
  | some pv => simp [optIntParam, hiv, some_orElseU, getParam_cons_hit]

theorem getParam_optInt_miss (key : String) (v : Option Int) (k : String)
    (rest : List (String × ParamValue)) (h : key ≠ k) :
    getParam (optIntParam key v ++ rest) k = getParam rest k := by
  cases hiv : intVal v with
  | none => simp [optIntParam, hiv]
  | some pv => simp [optIntParam, hiv, getParam_cons_miss _ _ _ _ h]

theorem getParam_optStr_last (k : String) (v : Option String) :
    getParam (optStrParam k v) k = strVal v := by
  have h := getParam_optStr_self k v []
  simpa [orElseU_none, getParam] using h

theorem getParam_optInt_last (k : String) (v : Option Int) :
    getParam (optIntParam k v) k = intVal v := by
  have h := getParam_optInt_self k v []
  simpa [orElseU_none, getParam] using h

theorem getParam_optInt_miss_last (key : String) (v : Option Int) (k : String)
    (h : key ≠ k) : getParam (optIntParam key v) k = none := by
  have h2 := getParam_optInt_miss key v k [] h
  simpa [getParam] using h2

/-! ### Per-key characterization of `buildParams` -/

theorem getParam_build_q (sq : SearchQuery) :
    getParam (buildParams sq) "q" = some (ParamValue.s sq.q) := by
  simp [buildParams, List.append_assoc, getParam_cons_hit]

theorem getParam_build_lang (sq : SearchQuery) :
    getParam (buildParams sq) "lang" = strVal sq.lang := by
  simp [buildParams, List.append_assoc, getParam_cons_miss, getParam_optStr_miss,
    getParam_optInt_miss, getParam_optStr_self, getParam_optInt_self,
    getParam_optStr_last, getParam_optInt_last, getParam_optInt_miss_last, orElseU_none]

theorem getParam_build_country (sq : SearchQuery) :
    getParam (buildParams sq) "country" = strVal sq.country := by
  simp [buildParams, List.append_assoc, getParam_cons_miss, getParam_optStr_miss,
    getParam_optInt_miss, getParam_optStr_self, getParam_optInt_self,
    getParam_optStr_last, getParam_optInt_last, getParam_optInt_miss_last, orElseU_none]

theorem getParam_build_max (sq : SearchQuery) :
    getParam (buildParams sq) "max" = intVal sq.max_articles := by
  simp [buildParams, List.append_assoc, getParam_cons_miss, getParam_optStr_miss,
    getParam_optInt_miss, getParam_optStr_self, getParam_optInt_self,
    getParam_optStr_last, getParam_optInt_last, getParam_optInt_miss_last, orElseU_none]

theorem getParam_build_in (sq : SearchQuery) :
    getParam (buildParams sq) "in" = strVal sq.search_in := by
  simp [buildParams, List.append_assoc, getParam_cons_miss, getParam_optStr_miss,
    getParam_optInt_miss, getParam_optStr_self, getParam_optInt_self,
    getParam_optStr_last, getParam_optInt_last, getParam_optInt_miss_last, orElseU_none]

theorem getParam_build_nullable (sq : SearchQuery) :
    getParam (buildParams sq) "nullable" = strVal sq.nullable := by
  simp [buildParams, List.append_assoc, getParam_cons_miss, getParam_optStr_miss,
    getParam_optInt_miss, getParam_optStr_self, getParam_optInt_self,
    getParam_optStr_last, getParam_optInt_last, getParam_optInt_miss_last, orElseU_none]

theorem getParam_build_from (sq : SearchQuery) :
    getParam (buildParams sq) "from" = strVal sq.date_from := by
  simp [buildParams, List.append_assoc, getParam_cons_miss, getParam_optStr_miss,
    getParam_optInt_miss, getParam_optStr_self, getParam_optInt_self,
    getParam_optStr_last, getParam_optInt_last, getParam_optInt_miss_last, orElseU_none]

theorem getParam_build_to (sq : SearchQuery) :
    getParam (buildParams sq) "to" = strVal sq.date_to := by
  simp [buildParams, List.append_assoc, getParam_cons_miss, getParam_optStr_miss,
    getParam_optInt_miss, getParam_optStr_self, getParam_optInt_self,
    getParam_optStr_last, getParam_optInt_last, getParam_optInt_miss_last, orElseU_none]

theorem getParam_build_sortby (sq : SearchQuery) :
    getParam (buildParams sq) "sortby" = strVal sq.sortby := by
  simp [buildParams, List.append_assoc, getParam_cons_miss, getParam_optStr_miss,
    getParam_optInt_miss, getParam_optStr_self, getParam_optInt_self,
    getParam_optStr_last, getParam_optInt_last, getParam_optInt_miss_last, orElseU_none]

theorem getParam_build_page (sq : SearchQuery) :
    getParam (buildParams sq) "page" = intVal sq.page := by
  simp [buildParams, List.append_assoc, getParam_cons_miss, getParam_optStr_miss,
    getParam_optInt_miss, getParam_optStr_self, getParam_optInt_self,
    getParam_optStr_last, getParam_optInt_last, getParam_optInt_miss_last, orElseU_none]

theorem getParam_build_apikey (sq : SearchQuery) :
    getParam (buildParams sq) "apikey" = none := by
  simp [buildParams, List.append_assoc, getParam_cons_miss, getParam_optStr_miss,
    getParam_optInt_miss, getParam_optStr_self, getParam_optInt_self,
    getParam_optStr_last, getParam_optInt_last, getParam_optInt_miss_last, orElseU_none]

/-! ### Substring lemmas -/

theorem listStartsWith_append_self (p t : List Char) :
    listStartsWith (p ++ t) p = true := by
  induction p with
  | nil => simp [listStartsWith]
  | cons a p ih => simp [listStartsWith, ih]

theorem listContainsSub_of_startsWith (s p : List Char)
    (h : listStartsWith s p = true) : listContainsSub s p = true := by
  cases s with
  | nil =>
    cases p with
    | nil => rfl
    | cons b q => simp [listStartsWith] at h
  | cons a t => simp [listContainsSub, h]

theorem listContainsSub_append_left (a s p : List Char)
    (h : listContainsSub s p = true) : listContainsSub (a ++ s) p = true := by
  induction a with
  | nil => simpa using h
  | cons x xs ih => simp [listContainsSub, ih]

theorem strContains_parts (a pat b : String) :
    strContains (a ++ pat ++ b) pat = true := by
  have hd : (a ++ pat ++ b).data = a.data ++ (pat.data ++ b.data) := by
    simp [List.append_assoc]
  rw [strContains, hd]
  exact listContainsSub_append_left _ _ _
    (listContainsSub_of_startsWith _ _ (listStartsWith_append_self _ _))

theorem strContains_suffix (a pat : String) :
    strContains (a ++ pat) pat = true := by
  have h := strContains_parts a pat ""
  simpa using h

theorem listStartsWith_append_of_false (s d p : List Char)
    (h : listStartsWith s p = false) (hlen : p.length ≤ s.length) :
    listStartsWith (s ++ d) p = false := by
  induction p generalizing s with
  | nil => simp [listStartsWith] at h
  | cons b q ih =>
    cases s with
    | nil => simp at hlen
    | cons a t =>
      simp only [List.cons_append, listStartsWith, Bool.and_eq_false_iff] at h ⊢
      rcases h with h | h
      · exact Or.inl h
      · exact Or.inr (ih t h (by simpa using hlen))

theorem strContains_of_middle (s a pat b : String)
    (hdata : s.data = a.data ++ (pat.data ++ b.data)) : strContains s pat = true := by
  rw [strContains, hdata]
  exact listContainsSub_append_left _ _ _
    (listContainsSub_of_startsWith _ _ (listStartsWith_append_self _ _))

theorem netmsg_not_http_shaped (desc : String) :
    strStartsWith ("Network error connecting to GNews API: " ++ desc)
      "GNews API error:" = false := by
  rw [strStartsWith, String.data_append]
  exact listStartsWith_append_of_false _ _ _ (by decide) (by decide)

/-! ### The injected key and the request pipeline -/

theorem dictInsert_append (ps : List (String × ParamValue)) (k : String) (v : ParamValue)
    (h : getParam ps k = none) : dictInsert ps k v = ps ++ [(k, v)] := by
  have hfind : ps.find? (fun kv => kv.1 == k) = none := by
    cases hf : ps.find? (fun kv => kv.1 == k) with
    | none => rfl
    | some a => rw [getParam, hf] at h; simp at h
  have hany : ps.any (fun kv => kv.1 == k) = false := by
    rw [List.any_eq_false]
    exact fun x hx => List.find?_eq_none.mp hfind x hx
  simp [dictInsert, hany]

theorem get_api_key_ok (key : String) (hk : key ≠ "") :
    get_api_key (some key) = Except.ok key := by
  simp [get_api_key, hk]

theorem get_api_key_missing (env : Option String) (h : env = none ∨ env = some "") :
    get_api_key env = Except.error "Missing GNEWS_API_KEY environment variable." := by
  rcases h with h | h <;> subst h <;> simp [get_api_key]

theorem make_gnews_request_with_key (key : String) (u : Upstream)
    (params : List (String × ParamValue)) (hk : key ≠ "") :
    make_gnews_request (some key) u params =
      { params_after := dictInsert params "apikey" (ParamValue.s key)
        networkCalls := 1
        outcome := requestOutcome u } := by
  simp [make_gnews_request, get_api_key_ok key hk]

theorem upstreamRequest_with_key (key : String) (u : Upstream) (sq : SearchQuery)
    (hk : key ≠ "") :
    upstreamRequest (some key) u sq = buildParams sq ++ [("apikey", ParamValue.s key)] := by
  rw [upstreamRequest, make_gnews_request_with_key key u _ hk]
  exact dictInsert_append _ _ _ (getParam_build_apikey sq)

theorem make_gnews_request_outcome_error (env : Option String) (u : Upstream)
    (params : List (String × ParamValue)) (h : failureMode env u) :
    ∃ m, (make_gnews_request env u params).outcome = Except.error m := by
  rcases h with h | h | ⟨d, h⟩ | ⟨r, h, hs⟩ | ⟨r, m, h, h200, hj⟩
  · exact ⟨"Missing GNEWS_API_KEY environment variable.",
      by simp [make_gnews_request, get_api_key_missing env (Or.inl h)]⟩
  · exact ⟨"Missing GNEWS_API_KEY environment variable.",
      by simp [make_gnews_request, get_api_key_missing env (Or.inr h)]⟩
  · subst h
    cases hek : get_api_key env with
    | error msg => exact ⟨msg, by simp [make_gnews_request, hek]⟩
    | ok key =>
      exact ⟨"Network error connecting to GNews API: " ++ d,
        by simp [make_gnews_request, hek, requestOutcome]⟩
  · subst h
    cases hek : get_api_key env with
    | error msg => exact ⟨msg, by simp [make_gnews_request, hek]⟩
    | ok key =>
      exact ⟨nonOkDetail ("GNews API error: " ++ toString r.status_code) r.json r.text,
        by simp [make_gnews_request, hek, requestOutcome, hs]⟩
  · subst h
    cases hek : get_api_key env with
    | error msg => exact ⟨msg, by simp [make_gnews_request, hek]⟩
    | ok key => exact ⟨m, by simp [make_gnews_request, hek, requestOutcome, h200, hj]⟩

theorem search_news_of_outcome_error (env : Option String) (u : Upstream)
    (sq : SearchQuery) (m : String)
    (h : (make_gnews_request env u (buildParams sq)).outcome = Except.error m) :
    search_news env u sq =
      { success := false, query := sq.q, error := some m,
        totalArticles := none, articles := none,
        parameters_used := (make_gnews_request env u (buildParams sq)).params_after } := by
  simp [search_news, h]

theorem strContains_base_self (S : String) :
    strContains ("GNews API error: " ++ S) S = true :=
  strContains_of_middle _ "GNews API error: " _ "" (by simp)

theorem strContains_base_ext (S x y : String) :
    strContains ("GNews API error: " ++ S ++ x ++ y) S = true :=
  strContains_of_middle _ "GNews API error: " _ (x ++ y) (by simp [List.append_assoc])

/-! ### Claim theorems -/

/-- C1, counterexample: a `search_news` call supplying only the query and
leaving every optional field at its declared default does not send exactly
the keys `q` and `apikey`: the upstream request also carries `max`, `sortby`
and `page`. -/
theorem upstreamRequest_default_not_two_keys :
    (upstreamRequest (some "KEY") (Upstream.netError "e") { q := "hello" }).map Prod.fst
      ≠ ["q", "apikey"] := by decide

/-- C1, amended: a `search_news` call supplying only the query string, with
every optional field at its declared default and a non-empty credential,
sends upstream exactly the keys `q`, `max`, `sortby`, `page` and `apikey`
(the defaults `10`, `"publishedAt"` and `1` are truthy, so they are sent). -/
theorem upstreamRequest_default_keys (q key : String) (u : Upstream) (hk : key ≠ "") :
    (upstreamRequest (some key) u { q := q }).map Prod.fst
      = ["q", "max", "sortby", "page", "apikey"] := by
  rw [upstreamRequest_with_key key u _ hk]
  simp [buildParams, optStrParam, optIntParam, strVal, intVal]

/-- C1, witness: the amended statement at a concrete query and credential. -/
theorem upstreamRequest_default_keys_witness :
    ("KEY" : String) ≠ "" ∧
      (upstreamRequest (some "KEY") (Upstream.netError "x") { q := "news" }).map Prod.fst
        = ["q", "max", "sortby", "page", "apikey"] :=
  ⟨by decide, upstreamRequest_default_keys "news" "KEY" (Upstream.netError "x") (by decide)⟩

/-- C2, code bug: `make_gnews_request` writes the API key into the very
params dict the caller passed in, and `search_news` echoes that dict, so
`parameters_used` of the returned ToolResult contains the `apikey` entry
(here on a successful call with credential `"SECRET"`), contrary to the
stated scrubbing requirement. -/
theorem parameters_used_contains_apikey :
    getParam
      (search_news (some "SECRET")
          (Upstream.respond
            { status_code := 200, text := "",
              json := Except.ok (JValue.obj
                [("totalArticles", JValue.num 0), ("articles", JValue.arr [])]) })
          { q := "test" }).parameters_used
      "apikey" = some (ParamValue.s "SECRET") := by decide

/-- C3: for every credential state, transport behaviour in the four failure
modes (missing or empty credential, network failure, non-200 status,
unparseable 200 body) and query, `search_news` returns a failure-shaped
ToolResult: `success = false`, an error message present, and the query
echoed; no exception escapes. -/
theorem search_news_failure_always_toolresult (env : Option String) (u : Upstream)
    (sq : SearchQuery) (h : failureMode env u) :
    (search_news env u sq).success = false ∧
    (∃ e, (search_news env u sq).error = some e) ∧
    (search_news env u sq).query = sq.q := by
  obtain ⟨m, hm⟩ := make_gnews_request_outcome_error env u (buildParams sq) h
  rw [search_news_of_outcome_error env u sq m hm]
  exact ⟨rfl, ⟨m, rfl⟩, rfl⟩

/-- C3, witness: the failure shape at a concrete missing-credential call. -/
theorem search_news_failure_always_toolresult_witness :
    failureMode none (Upstream.netError "refused") ∧
    ((search_news none (Upstream.netError "refused") { q := "t" }).success = false ∧
      (∃ e, (search_news none (Upstream.netError "refused") { q := "t" }).error = some e) ∧
      (search_news none (Upstream.netError "refused") { q := "t" }).query = "t") :=
  ⟨Or.inl rfl,
    search_news_failure_always_toolresult none (Upstream.netError "refused")
      { q := "t" } (Or.inl rfl)⟩

/-- C4: whenever the credential is absent or empty, `search_news` performs
zero transport calls and returns a failure ToolResult whose error message is
exactly "Missing GNEWS_API_KEY environment variable.". -/
theorem search_news_missing_credential (env : Option String) (u : Upstream)
    (sq : SearchQuery) (h : env = none ∨ env = some "") :
    (search_news env u sq).success = false ∧
    (search_news env u sq).error = some "Missing GNEWS_API_KEY environment variable." ∧
    searchNewsTransportCalls env u sq = 0 := by
  have hek := get_api_key_missing env h
  have hreq : make_gnews_request env u (buildParams sq) =
      { params_after := buildParams sq, networkCalls := 0,
        outcome := Except.error "Missing GNEWS_API_KEY environment variable." } := by
    simp [make_gnews_request, hek]
  refine ⟨?_, ?_, ?_⟩
  · simp [search_news, hreq]
  · simp [search_news, hreq]
  · simp [searchNewsTransportCalls, hreq]

/-- C4, witness: the missing-credential behaviour at a concrete call. -/
theorem search_news_missing_credential_witness :
    ((none : Option String) = none ∨ (none : Option String) = some "") ∧
    ((search_news none (Upstream.netError "never") { q := "t" }).success = false ∧
      (search_news none (Upstream.netError "never") { q := "t" }).error
        = some "Missing GNEWS_API_KEY environment variable." ∧
      searchNewsTransportCalls none (Upstream.netError "never") { q := "t" } = 0) :=
  ⟨Or.inl rfl,
    search_news_missing_credential none (Upstream.netError "never") { q := "t" } (Or.inl rfl)⟩

/-- C5: for every 200 response whose parsed body is a JSON object,
`search_news` returns `success = true`, with `totalArticles` the value of
the body entry of that name (defaulting to 0 when absent) and `articles`
the body article sequence in order (defaulting to the empty sequence). -/
theorem search_news_success_shape (key : String) (resp : HttpResponse) (sq : SearchQuery)
    (kvs : List (String × JValue)) (hk : key ≠ "") (h200 : resp.status_code = 200)
    (hj : resp.json = Except.ok (JValue.obj kvs)) :
    search_news (some key) (Upstream.respond resp) sq =
      { success := true, query := sq.q, error := none,
        totalArticles := some (objGetD kvs "totalArticles" (JValue.num 0)),
        articles := some (objGetD kvs "articles" (JValue.arr [])),
        parameters_used := buildParams sq ++ [("apikey", ParamValue.s key)] } := by
  have hreq := make_gnews_request_with_key key (Upstream.respond resp) (buildParams sq) hk
  have hout : requestOutcome (Upstream.respond resp) = Except.ok (JValue.obj kvs) := by
    simp [requestOutcome, h200, hj]
  simp [search_news, hreq, hout, dictInsert_append _ _ _ (getParam_build_apikey sq)]

/-- C5, witness: the body with `totalArticles = 2` and two articles yields
`success = true`, `totalArticles = 2` and the same two articles in order. -/
theorem search_news_success_shape_witness :
    (search_news (some "K")
        (Upstream.respond
          { status_code := 200, text := "", json := Except.ok (JValue.obj sampleBody) })
        { q := "t" }).success = true ∧
    (search_news (some "K")
        (Upstream.respond
          { status_code := 200, text := "", json := Except.ok (JValue.obj sampleBody) })
        { q := "t" }).totalArticles = some (JValue.num 2) ∧
    (search_news (some "K")
        (Upstream.respond
          { status_code := 200, text := "", json := Except.ok (JValue.obj sampleBody) })
        { q := "t" }).articles
      = some (JValue.arr [sampleArticleA, sampleArticleB]) := by
  have h := search_news_success_shape "K"
    { status_code := 200, text := "", json := Except.ok (JValue.obj sampleBody) }
    { q := "t" } sampleBody (by decide) rfl rfl
  rw [h]
  exact ⟨rfl, rfl, rfl⟩

/-- C6, counterexample: a 500 response whose body is valid JSON without an
`errors` entry yields the error string "GNews API error: 500"; the raw body
text is not included, contrary to the stated fallback to the response
text. -/
theorem non200_json_without_errors_detail_missing :
    (search_news (some "K")
        (Upstream.respond
          { status_code := 500, text := "RAWBODY",
            json := Except.ok (JValue.obj [("status", JValue.num 1)]) })
        { q := "t" }).error = some "GNews API error: 500" ∧
    strContains "GNews API error: 500" "RAWBODY" = false := by
  exact ⟨by decide, by decide⟩

/-- C6, amended: on every non-200 response `search_news` fails with an error
string containing the status code; when the body parses as a JSON object
with an `errors` entry, the rendering of that entry is also contained; when
the body is not valid JSON, the raw response text is contained; a JSON
object body without an `errors` entry contributes nothing beyond the
status. -/
theorem search_news_non200_error_detail (key : String) (resp : HttpResponse)
    (sq : SearchQuery) (hk : key ≠ "") (hs : resp.status_code ≠ 200) :
    (search_news (some key) (Upstream.respond resp) sq).success = false ∧
    ∃ e, (search_news (some key) (Upstream.respond resp) sq).error = some e ∧
      strContains e (toString resp.status_code) = true ∧
      (∀ kvs v, resp.json = Except.ok (JValue.obj kvs) →
        objLookup kvs "errors" = some v → strContains e (pyStr v) = true) ∧
      (∀ m, resp.json = Except.error m → strContains e resp.text = true) ∧
      (∀ kvs, resp.json = Except.ok (JValue.obj kvs) →
        objLookup kvs "errors" = none →
        e = "GNews API error: " ++ toString resp.status_code) := by
  have hreq := make_gnews_request_with_key key (Upstream.respond resp) (buildParams sq) hk
  have hout : (make_gnews_request (some key) (Upstream.respond resp)
      (buildParams sq)).outcome
      = Except.error (nonOkDetail ("GNews API error: " ++ toString resp.status_code)
          resp.json resp.text) := by
    rw [hreq]; simp [requestOutcome, hs]
  rw [search_news_of_outcome_error _ _ _ _ hout]
  refine ⟨rfl, nonOkDetail _ resp.json resp.text, rfl, ?_, ?_, ?_, ?_⟩
  · cases hj : resp.json with
    | error m => simp only [nonOkDetail]; exact strContains_base_ext _ _ _
    | ok j =>
      cases j with
      | null => simp only [nonOkDetail]; exact strContains_base_ext _ _ _
      | bool b => simp only [nonOkDetail]; exact strContains_base_ext _ _ _
      | num n => simp only [nonOkDetail]; exact strContains_base_ext _ _ _
      | str s =>
        simp only [nonOkDetail]
        split
        · exact strContains_base_ext _ _ _
        · exact strContains_base_self _
      | arr xs =>
        simp only [nonOkDetail]
        split
        · exact strContains_base_ext _ _ _
        · exact strContains_base_self _
      | obj kvs =>
        simp only [nonOkDetail]
        cases hv : objLookup kvs "errors" with
        | none => simp only [hv]; exact strContains_base_self _
        | some v => simp only [hv]; exact strContains_base_ext _ _ _
  · intro kvs v hjs hv
    rw [hjs]; simp only [nonOkDetail, hv]
    exact strContains_suffix _ _
  · intro m hm
    rw [hm]; simp only [nonOkDetail]
    exact strContains_suffix _ _
  · intro kvs hjs hnone
    rw [hjs]; simp only [nonOkDetail, hnone]

/-- C6, witness: the amended statement at the concrete 403 response with
body carrying `errors = [Invalid API key]`; the resulting error string
contains both `403` and `Invalid API key`. -/
theorem search_news_non200_error_detail_witness :
    (("K" : String) ≠ "" ∧ resp403.status_code ≠ 200) ∧
    ((search_news (some "K") (Upstream.respond resp403) { q := "t" }).success = false ∧
      ∃ e, (search_news (some "K") (Upstream.respond resp403) { q := "t" }).error = some e ∧
        strContains e (toString resp403.status_code) = true ∧
        (∀ kvs v, resp403.json = Except.ok (JValue.obj kvs) →
          objLookup kvs "errors" = some v → strContains e (pyStr v) = true) ∧
        (∀ m, resp403.json = Except.error m → strContains e resp403.text = true) ∧
        (∀ kvs, resp403.json = Except.ok (JValue.obj kvs) →
          objLookup kvs "errors" = none →
          e = "GNews API error: " ++ toString resp403.status_code)) ∧
    strContains
      ((search_news (some "K") (Upstream.respond resp403) { q := "t" }).error.getD "")
      "403" = true ∧
    strContains
      ((search_news (some "K") (Upstream.respond resp403) { q := "t" }).error.getD "")
      "Invalid API key" = true :=
  ⟨⟨by decide, by decide⟩,
    search_news_non200_error_detail "K" resp403 { q := "t" } (by decide) (by decide),
    by decide, by decide⟩

/-- C7: on every network-level transport failure, `search_news` fails with
an error string that is exactly the network prefix followed by the failure
description: it begins with "Network error connecting to GNews API: " and
does not begin with the HTTP-status format "GNews API error:". -/
theorem search_news_network_failure (key desc : String) (sq : SearchQuery) (hk : key ≠ "") :
    (search_news (some key) (Upstream.netError desc) sq).success = false ∧
    (search_news (some key) (Upstream.netError desc) sq).error
      = some ("Network error connecting to GNews API: " ++ desc) ∧
    strStartsWith ("Network error connecting to GNews API: " ++ desc)
      "Network error connecting to GNews API: " = true ∧
    strStartsWith ("Network error connecting to GNews API: " ++ desc)
      "GNews API error:" = false := by
  have hout : (make_gnews_request (some key) (Upstream.netError desc)
      (buildParams sq)).outcome
      = Except.error ("Network error connecting to GNews API: " ++ desc) := by
    rw [make_gnews_request_with_key key _ _ hk]; simp [requestOutcome]
  rw [search_news_of_outcome_error _ _ _ _ hout]
  refine ⟨rfl, rfl, ?_, netmsg_not_http_shaped desc⟩
  rw [strStartsWith, String.data_append]
  exact listStartsWith_append_self _ _

/-- C7, witness: the network-failure shape at a concrete refused
connection. -/
theorem search_news_network_failure_witness :
    ("K" : String) ≠ "" ∧
    ((search_news (some "K") (Upstream.netError "Connection refused") { q := "t" }).success
        = false ∧
      (search_news (some "K") (Upstream.netError "Connection refused") { q := "t" }).error
        = some ("Network error connecting to GNews API: " ++ "Connection refused") ∧
      strStartsWith ("Network error connecting to GNews API: " ++ "Connection refused")
        "Network error connecting to GNews API: " = true ∧
      strStartsWith ("Network error connecting to GNews API: " ++ "Connection refused")
        "GNews API error:" = false) :=
  ⟨by decide,
    search_news_network_failure "K" "Connection refused" { q := "t" } (by decide)⟩

/-- C8: a 200 response whose body cannot be parsed as JSON yields a
failure-shaped ToolResult (`success = false`, the decode-error message as
the error string), not a success result and not an uncaught fault. -/
theorem search_news_unparseable_200 (key m : String) (resp : HttpResponse)
    (sq : SearchQuery) (hk : key ≠ "") (h200 : resp.status_code = 200)
    (hj : resp.json = Except.error m) :
    (search_news (some key) (Upstream.respond resp) sq).success = false ∧
    (search_news (some key) (Upstream.respond resp) sq).error = some m := by
  have hout : (make_gnews_request (some key) (Upstream.respond resp)
      (buildParams sq)).outcome = Except.error m := by
    rw [make_gnews_request_with_key key _ _ hk]; simp [requestOutcome, h200, hj]
  rw [search_news_of_outcome_error _ _ _ _ hout]
  exact ⟨rfl, rfl⟩

/-- C8, witness: the malformed-200 behaviour at a concrete HTML body. -/
theorem search_news_unparseable_200_witness :
    (("K" : String) ≠ "") ∧
    ((search_news (some "K")
        (Upstream.respond
          { status_code := 200, text := "<html>down</html>",
            json := Except.error "Expecting value: line 1 column 1 (char 0)" })
        { q := "t" }).success = false ∧
      (search_news (some "K")
        (Upstream.respond
          { status_code := 200, text := "<html>down</html>",
            json := Except.error "Expecting value: line 1 column 1 (char 0)" })
        { q := "t" }).error = some "Expecting value: line 1 column 1 (char 0)") :=
  ⟨by decide,
    search_news_unparseable_200 "K" "Expecting value: line 1 column 1 (char 0)"
      { status_code := 200, text := "<html>down</html>",
        json := Except.error "Expecting value: line 1 column 1 (char 0)" }
      { q := "t" } (by decide) rfl rfl⟩

/-- C9, counterexample: fields left unset do contribute keys:
`max_articles`, `sortby` and `page` fall back to their truthy declared
defaults, which are sent upstream even when the caller supplied only the
query. -/
theorem unset_optional_fields_still_sent :
    getParam (buildParams { q := "news" }) "max" = some (ParamValue.i 10) ∧
    getParam (buildParams { q := "news" }) "sortby" = some (ParamValue.s "publishedAt") ∧
    getParam (buildParams { q := "news" }) "page" = some (ParamValue.i 1) := by
  exact ⟨by decide, by decide, by decide⟩

/-- C9, amended: each optional field supplied with a truthy value appears in
the outbound parameter set under its exact mapped name with the supplied
value unmodified; a field that is unset or falsy contributes no key (not an
empty string, not null) — but the presence test is truthiness after the
declared defaults apply, so unset `max_articles`, `sortby` and `page` send
their defaults `10`, `"publishedAt"` and `1` rather than being omitted. The
statement characterises the value at every mapped key (`strVal`/`intVal`
encode the truthiness test), and the key `apikey` is never produced by the
builder itself. -/
theorem buildParams_key_characterization (sq : SearchQuery) :
    getParam (buildParams sq) "q" = some (ParamValue.s sq.q) ∧
    getParam (buildParams sq) "lang" = strVal sq.lang ∧
    getParam (buildParams sq) "country" = strVal sq.country ∧
    getParam (buildParams sq) "max" = intVal sq.max_articles ∧
    getParam (buildParams sq) "in" = strVal sq.search_in ∧
    getParam (buildParams sq) "nullable" = strVal sq.nullable ∧
    getParam (buildParams sq) "from" = strVal sq.date_from ∧
    getParam (buildParams sq) "to" = strVal sq.date_to ∧
    getParam (buildParams sq) "sortby" = strVal sq.sortby ∧
    getParam (buildParams sq) "page" = intVal sq.page ∧
    getParam (buildParams sq) "apikey" = none :=
  ⟨getParam_build_q sq, getParam_build_lang sq, getParam_build_country sq,
    getParam_build_max sq, getParam_build_in sq, getParam_build_nullable sq,
    getParam_build_from sq, getParam_build_to sq, getParam_build_sortby sq,
    getParam_build_page sq, getParam_build_apikey sq⟩

/-- C10, counterexample: an explicit falsy value is omitted, but not
"exactly as if it had not been supplied": supplying `max_articles = 0`
omits the `max` key, while not supplying it sends the default `max = 10`,
so the two parameter sets differ. -/
theorem explicit_zero_differs_from_unset :
    getParam (buildParams { q := "x", max_articles := some 0 }) "max" = none ∧
    getParam (buildParams { q := "x" }) "max" = some (ParamValue.i 10) ∧
    buildParams { q := "x", max_articles := some 0 } ≠ buildParams { q := "x" } := by
  exact ⟨by decide, by decide, by decide⟩

/-- C10, amended: an optional field explicitly supplied with a falsy value
(0 for `max_articles` or `page`, the empty string for the string fields) is
omitted from the outbound parameter set entirely — the presence test is
truthiness of the value, not presence of the argument. For the string
fields this coincides with not supplying the field; for `max_articles` and
`page` it does not, since leaving them unset sends their defaults. -/
theorem falsy_supplied_fields_omitted (sq : SearchQuery) :
    (sq.max_articles = some 0 → getParam (buildParams sq) "max" = none) ∧
    (sq.page = some 0 → getParam (buildParams sq) "page" = none) ∧
    (sq.lang = some "" → getParam (buildParams sq) "lang" = none) ∧
    (sq.country = some "" → getParam (buildParams sq) "country" = none) ∧
    (sq.search_in = some "" → getParam (buildParams sq) "in" = none) ∧
    (sq.nullable = some "" → getParam (buildParams sq) "nullable" = none) ∧
    (sq.date_from = some "" → getParam (buildParams sq) "from" = none) ∧
    (sq.date_to = some "" → getParam (buildParams sq) "to" = none) := by
  refine ⟨fun h => ?_, fun h => ?_, fun h => ?_, fun h => ?_, fun h => ?_, fun h => ?_,
    fun h => ?_, fun h => ?_⟩
  · rw [getParam_build_max, h]; simp [intVal]
  · rw [getParam_build_page, h]; simp [intVal]
  · rw [getParam_build_lang, h]; simp [strVal]
  · rw [getParam_build_country, h]; simp [strVal]
  · rw [getParam_build_in, h]; simp [strVal]
  · rw [getParam_build_nullable, h]; simp [strVal]
  · rw [getParam_build_from, h]; simp [strVal]
  · rw [getParam_build_to, h]; simp [strVal]

/-- C10, witness: a query with every listed field explicitly falsy produces
a parameter set with none of the corresponding keys. -/
theorem falsy_supplied_fields_omitted_witness :
    sqAllFalsy.max_articles = some 0 ∧
    getParam (buildParams sqAllFalsy) "max" = none ∧
    getParam (buildParams sqAllFalsy) "page" = none ∧
    getParam (buildParams sqAllFalsy) "lang" = none ∧
    getParam (buildParams sqAllFalsy) "country" = none ∧
    getParam (buildParams sqAllFalsy) "in" = none ∧
    getParam (buildParams sqAllFalsy) "nullable" = none ∧
    getParam (buildParams sqAllFalsy) "from" = none ∧
    getParam (buildParams sqAllFalsy) "to" = none := by
  have h := falsy_supplied_fields_omitted sqAllFalsy
  exact ⟨rfl, h.1 rfl, h.2.1 rfl, h.2.2.1 rfl, h.2.2.2.1 rfl, h.2.2.2.2.1 rfl,
    h.2.2.2.2.2.1 rfl, h.2.2.2.2.2.2.1 rfl, h.2.2.2.2.2.2.2 rfl⟩

end GNews
